import Mathlib

/-!
Shallow embedding of the yukkuri-lib repository (files `src/yaml2items.py`
and `src/project.py`): the script parser (`list_item_specs`), the image
transform calculator (`calculate_image_transformation`), the alignment loop
of `main`, and the timeline-item synthesis (`ItemBase.attrs_from_spec` and
its subclasses).  Python floats are modelled as rationals, Python ints as
`Int`, fallible code as `Except`.  External collaborators (YAML loading,
image pixel-dimension lookup, JSON project parsing) are modelled as
already-supplied values or function parameters, per the spec's scope.
-/

namespace YukkuriLib

/-- Model of `project.py` `Animation` (pydantic defaults:
`From = 0.0, To = 0.0, AnimationType = "なし", Span = 0.0`). -/
structure Animation where
  From : ℚ := 0
  To : ℚ := 0
  AnimationType : String := "なし"
  Span : ℚ := 0
deriving DecidableEq

/-- Model of `Animation.const`: `return cls(From=value)` — only `From` is
set, the other fields keep their class defaults. -/
def Animation.const (value : ℚ) : Animation := { From := value }

/-- Characters treated as whitespace by Python's `str.strip()` (the ASCII
whitespace characters that occur in practice). -/
def isSpaceChar (c : Char) : Bool :=
  c == ' ' || c == '\t' || c == '\n' || c == '\r'

/-- Strip leading and trailing whitespace from a character list. -/
def trimList (l : List Char) : List Char :=
  ((l.dropWhile isSpaceChar).reverse.dropWhile isSpaceChar).reverse

/-- Model of Python `str.strip()` as used by the `VoiceSpec` text validator. -/
def pyStrip (s : String) : String := String.mk (trimList s.toList)

/-- Model of `yaml2items.py` `VoiceSpec` (after validation: `text` is the
stripped input). -/
structure VoiceSpec where
  character : String
  text : String
deriving DecidableEq

/-- Constructing a `VoiceSpec`: the `validate_text` validator strips the
text field. -/
def mkVoiceSpec (character text : String) : VoiceSpec :=
  { character := character, text := pyStrip text }

/-- The fields of `project.py` `VoiceItem` that the alignment engine reads
(`CharacterName`, `Serif` for matching, `Frame`, `Length` for placement);
the remaining fields are passthrough and never inspected by the core. -/
structure VoiceItem where
  CharacterName : String
  Serif : String
  Frame : Int
  Length : Int
deriving DecidableEq

/-- Model of `VoiceSpec.matches`: equality of character with
`CharacterName` and of text with `Serif`. -/
def VoiceSpec.matches (s : VoiceSpec) (v : VoiceItem) : Bool :=
  s.character == v.CharacterName && s.text == v.Serif

/-- The cue-marker payload: `ImageSpec` adds `image`, `TextSpec` adds
`text` and `font_size` to the shared `ItemSpec` fields. -/
inductive SpecKind where
  | image (path : String)
  | text (content : String) (font_size : Option ℚ)
deriving DecidableEq

/-- Model of `yaml2items.py` `ItemSpec` together with its two concrete
subclasses (collapsed into the `kind` field). -/
structure ItemSpec where
  kind : SpecKind
  zoom : Option ℚ := none
  y : Option ℚ := none
  start_voice_spec : Option VoiceSpec := none
  end_voice_spec : Option VoiceSpec := none
deriving DecidableEq

/-- A scalar YAML value appearing in a script mapping. -/
inductive YamlVal where
  | str (s : String)
  | num (q : ℚ)
deriving DecidableEq

/-- Pydantic v1 string coercion for a `str` field fed a scalar. -/
def YamlVal.coerceStr : YamlVal → String
  | .str s => s
  | .num q => toString q.num ++ (if q.den == 1 then "" else "/" ++ toString q.den)

/-- One line of the YAML script: a blank entry (`None`), a plain string, or
a mapping with string keys. -/
inductive ScriptLine where
  | nullLine
  | strLine (s : String)
  | mapLine (entries : List (String × YamlVal))
deriving DecidableEq

/-- Whether `needle` is an initial segment of `l`. -/
def leadsWith : List Char → List Char → Bool
  | [], _ => true
  | _ :: _, [] => false
  | a :: as, b :: bs => a == b && leadsWith as bs

/-- Whether `needle` occurs as a contiguous segment of `l`. -/
def hasSegment (needle : List Char) : List Char → Bool
  | [] => needle.isEmpty
  | b :: bs => leadsWith needle (b :: bs) || hasSegment needle bs

/-- Python `needle in hay` for strings: substring containment. -/
def strContains (hay needle : String) : Bool :=
  hasSegment needle.toList hay.toList

/-- Errors raised by the script parser: `TypeError` from `"image" in None`,
pydantic `ValidationError` from `parse_obj` on a non-mapping or ill-typed
field, and the `assert` failures in `list_item_specs`. -/
inductive ParseErr where
  | typeError
  | validationError
  | assertionError
deriving DecidableEq

/-- Python `key in line`: key membership for a mapping, substring test for
a string, `TypeError` for `None`. -/
def lineHasKey (line : ScriptLine) (key : String) : Except ParseErr Bool :=
  match line with
  | .nullLine => .error .typeError
  | .strLine s => .ok (strContains s key)
  | .mapLine es => .ok (es.any (fun e => e.1 == key))

/-- First value bound to `key` in a mapping, if any. -/
def lookupKey (es : List (String × YamlVal)) (key : String) : Option YamlVal :=
  (es.find? (fun e => e.1 == key)).map (fun e => e.2)

/-- An optional pydantic float field: absent gives `none`, a numeric value
is accepted, anything else is a `ValidationError`. -/
def optFloatField (es : List (String × YamlVal)) (key : String) :
    Except ParseErr (Option ℚ) :=
  match lookupKey es key with
  | none => .ok none
  | some (.num q) => .ok (some q)
  | some (.str _) => .error .validationError

/-- Model of `ImageSpec.parse_obj(line)`: requires a mapping with an
`image` key; `zoom` and `y` are optional floats; voice specs start unset. -/
def parseObjImage (line : ScriptLine) : Except ParseErr ItemSpec :=
  match line with
  | .mapLine es =>
    match lookupKey es "image" with
    | none => .error .validationError
    | some v =>
      match optFloatField es "zoom", optFloatField es "y" with
      | .ok z, .ok y =>
        .ok { kind := .image v.coerceStr, zoom := z, y := y,
              start_voice_spec := none, end_voice_spec := none }
      | .error e, _ => .error e
      | _, .error e => .error e
  | _ => .error .validationError

/-- Model of `TextSpec.parse_obj(line)`: requires a mapping with a `text`
key; `font_size`, `zoom` and `y` are optional floats. -/
def parseObjText (line : ScriptLine) : Except ParseErr ItemSpec :=
  match line with
  | .mapLine es =>
    match lookupKey es "text" with
    | none => .error .validationError
    | some v =>
      match optFloatField es "font_size", optFloatField es "zoom", optFloatField es "y" with
      | .ok fs, .ok z, .ok y =>
        .ok { kind := .text v.coerceStr fs, zoom := z, y := y,
              start_voice_spec := none, end_voice_spec := none }
      | .error e, _, _ => .error e
      | _, .error e, _ => .error e
      | _, _, .error e => .error e
  | _ => .error .validationError

/-- The parser's loop state: `current_item`, `last_voice_spec`, and the
items yielded so far. -/
structure PState where
  current_item : Option ItemSpec
  last_voice_spec : Option VoiceSpec
  acc : List ItemSpec
deriving DecidableEq

/-- Finalization of `current_item` when a new cue marker arrives
(`list_item_specs` lines 138–146): install `last_voice_spec` as the end
bound if present, default a missing end bound to the start bound, then
assert both bounds are populated. -/
def finalizeMid (ci : ItemSpec) (lv : Option VoiceSpec) : Except ParseErr ItemSpec :=
  let c1 := match lv with
            | some v => { ci with end_voice_spec := some v }
            | none => ci
  let c2 := if c1.end_voice_spec.isNone
            then { c1 with end_voice_spec := c1.start_voice_spec }
            else c1
  if c2.start_voice_spec.isSome && c2.end_voice_spec.isSome
  then .ok c2
  else .error .assertionError

/-- One iteration of the `for line in lines` loop of `list_item_specs`,
threading the state through `Except` (an exception aborts the whole
generator). -/
def pstep (st : Except ParseErr PState) (line : ScriptLine) : Except ParseErr PState :=
  match st with
  | .error e => .error e
  | .ok ps =>
    match lineHasKey line "image", lineHasKey line "text" with
    | .error e, _ => .error e
    | .ok _, .error e => .error e
    | .ok hasImage, .ok hasText =>
      if hasImage || hasText then
        match (match ps.current_item with
               | some ci => (finalizeMid ci ps.last_voice_spec).map
                   (fun fin => ps.acc ++ [fin])
               | none => .ok ps.acc) with
        | .error e => .error e
        | .ok acc2 =>
          match (if hasImage then parseObjImage line else parseObjText line) with
          | .error e => .error e
          | .ok newItem =>
            .ok { current_item := some newItem, last_voice_spec := none, acc := acc2 }
      else
        match ps.current_item with
        | none => .ok ps
        | some ci =>
          match line with
          | .mapLine ((k, v) :: _) =>
            let vs := mkVoiceSpec k v.coerceStr
            if ci.start_voice_spec.isNone then
              .ok { current_item := some { ci with start_voice_spec := some vs },
                    last_voice_spec := ps.last_voice_spec, acc := ps.acc }
            else
              .ok { current_item := some ci, last_voice_spec := some vs, acc := ps.acc }
          | _ => .ok ps

/-- The initial parser state. -/
def initPState : PState := { current_item := none, last_voice_spec := none, acc := [] }

/-- The end-of-sequence finalization of `list_item_specs` (lines 164–168).
Note: unlike the mid-sequence branch, this branch does NOT default a
missing end bound to the start bound before the assertion. -/
def parseFinish : Except ParseErr PState → Except ParseErr (List ItemSpec)
  | .error e => .error e
  | .ok ps =>
    match ps.current_item with
    | none => .ok ps.acc
    | some ci =>
      let c1 := match ps.last_voice_spec with
                | some v => { ci with end_voice_spec := some v }
                | none => ci
      if c1.start_voice_spec.isSome && c1.end_voice_spec.isSome
      then .ok (ps.acc ++ [c1])
      else .error .assertionError

/-- Model of `yaml2items.py` `list_item_specs`, fully consumed (as by the
`list(...)` call in `main`). -/
def list_item_specs (lines : List ScriptLine) : Except ParseErr (List ItemSpec) :=
  parseFinish (lines.foldl pstep (.ok initPState))

/-- Errors of `calculate_image_transformation`: the `ZeroDivisionError`
raised when an image dimension is zero, and its two `assert` statements. -/
inductive CalcErr where
  | zeroDivision
  | assertionError
deriving DecidableEq

/-- Model of `yaml2items.py` `ImageTransformation` (defaults `zoom = 0`,
`y = 0`; pydantic does not re-validate on assignment, so the assigned
float values are kept as given). -/
structure ImageTransformation where
  zoom : ℚ := 0
  y : ℚ := 0
deriving DecidableEq

/-- Model of `calculate_image_transformation`.  `Image.open` (pixel
dimension lookup) is the external collaborator; its result is passed in as
`imageWidth`/`imageHeight`.  Division by a zero dimension raises
`ZeroDivisionError`; the two trailing `assert` statements raise when their
condition fails. -/
def calculate_image_transformation (imageWidth imageHeight videoWidth videoHeight bottom margin : ℚ) :
    Except CalcErr ImageTransformation :=
  if imageWidth = 0 ∨ imageHeight = 0 then .error .zeroDivision
  else
    let y := bottom * (-1 / 2)
    let width_zoom := (videoWidth - margin) / imageWidth
    let height_zoom := (videoHeight - margin - bottom) / imageHeight
    let zoom := 100 * min width_zoom height_zoom
    if zoom * imageHeight / 100 < videoHeight - bottom ∧ zoom * imageWidth / 100 < videoWidth
    then .ok { zoom := zoom, y := y }
    else .error .assertionError

/-- Errors of the alignment loop in `main`: the `ValueError` raised when a
voice reference finds no match (carrying the reference, which can be the
unset `None`), an `AttributeError` from calling `.matches` on an unset
voice spec, an image-loading failure, and a propagated calculator error. -/
inductive AlignErr where
  | unmatchedVoice (ref : Option VoiceSpec)
  | attributeError
  | imageError
  | calcError (e : CalcErr)
deriving DecidableEq

/-- `spec.matches(front)` where `spec` is an `Optional[VoiceSpec]`: calling
a method on `None` raises `AttributeError`. -/
def optMatches (o : Option VoiceSpec) (v : VoiceItem) : Except AlignErr Bool :=
  match o with
  | none => .error .attributeError
  | some s => .ok (s.matches v)

/-- The inner scanning loop of `main` (`while voice_items and not
spec.matches(voice_items[0]): voice_items.pop(0)` followed by the
empty-queue `ValueError`): discards non-matching items from the front and
returns the queue with the first match still at the front. -/
def scanVoices (o : Option VoiceSpec) : List VoiceItem → Except AlignErr (VoiceItem × List VoiceItem)
  | [] => .error (.unmatchedVoice o)
  | v :: vs =>
    match optMatches o v with
    | .error e => .error e
    | .ok b => if b then .ok (v, vs) else scanVoices o vs

/-- The canvas fields of `project.py` `VideoInfo` that the transform
calculator reads. -/
structure VideoInfo where
  Width : ℚ
  Height : ℚ
deriving DecidableEq

/-- The collaborators and constants the alignment loop closes over:
`Image.open`-based dimension lookup, the project's `VideoInfo`, and the
`project_root` path. -/
structure AlignCfg where
  getDims : String → Except AlignErr (ℚ × ℚ)
  videoInfo : VideoInfo
  projectRoot : String

/-- The fixed insertion layer of `main` (`layer = 3`). -/
def insertionLayer : Int := 3

/-- The kind-specific payload of a synthesized timeline item: `ImageItem`
carries `FilePath`; `TextItem` carries `Text` and `FontSize`. -/
inductive SynthKind where
  | image (FilePath : String)
  | text (Text : String) (FontSize : Animation)
deriving DecidableEq

/-- The fields of a synthesized timeline item that `attrs_from_spec` and
its overrides set (the remaining `ItemBase` fields keep constant pydantic
defaults and are never read back by this system). -/
structure SynthItem where
  kind : SynthKind
  Layer : Int
  Frame : Int
  Length : Int
  Zoom : Animation
  Y : Animation
deriving DecidableEq

/-- Python truthiness of an `Optional[float]` field (`if spec.zoom:`):
false for `None` and for `0.0`. -/
def animFromOpt (o : Option ℚ) (dflt : Animation) : Animation :=
  match o with
  | some q => if q = 0 then dflt else Animation.const q
  | none => dflt

/-- `str(PureWindowsPath(project_root / spec.image))`: join and render with
backslash separators. -/
def windowsPath (root img : String) : String :=
  (root ++ "/" ++ img).replace "/" "\\"

/-- Model of the synthesis step of `main` (lines 79–95): for an
`ImageSpec`, compute the transform with fixed margins 320/20 and backfill
`zoom`/`y` when they are `None`; then build the new item via
`ItemBase.attrs_from_spec` (`Frame := start.Frame`,
`Length := end.Frame + end.Length - start.Frame`, `Zoom`/`Y`/`FontSize`
set only when the spec field is truthy, class defaults otherwise). -/
def synthItem (cfg : AlignCfg) (spec : ItemSpec) (sv ev : VoiceItem) :
    Except AlignErr SynthItem :=
  match spec.kind with
  | .text content font_size =>
    .ok { kind := .text content (animFromOpt font_size (Animation.const 48)),
          Layer := insertionLayer,
          Frame := sv.Frame,
          Length := ev.Frame + ev.Length - sv.Frame,
          Zoom := animFromOpt spec.zoom (Animation.const 100),
          Y := animFromOpt spec.y {} }
  | .image path =>
    match cfg.getDims path with
    | .error e => .error e
    | .ok (w, h) =>
      match calculate_image_transformation w h cfg.videoInfo.Width cfg.videoInfo.Height 320 20 with
      | .error e => .error (.calcError e)
      | .ok tr =>
        .ok { kind := .image (windowsPath cfg.projectRoot path),
              Layer := insertionLayer,
              Frame := sv.Frame,
              Length := ev.Frame + ev.Length - sv.Frame,
              Zoom := animFromOpt (some (spec.zoom.getD tr.zoom)) (Animation.const 100),
              Y := animFromOpt (some (spec.y.getD tr.y)) {} }

/-- Model of the alignment loop of `main` (lines 59–95): while both queues
are non-empty, pop the next cue, scan for its start reference (first match
stays at the front), scan on for its end reference (popping the match),
synthesize the item and append it.  When either queue empties at the top
of the loop, the remaining entries of the other queue are left
unprocessed. -/
def alignLoop (cfg : AlignCfg) : List ItemSpec → List VoiceItem → List SynthItem →
    Except AlignErr (List SynthItem)
  | [], _, acc => .ok acc
  | _ :: _, [], acc => .ok acc
  | spec :: specs, v :: vs, acc =>
    match scanVoices spec.start_voice_spec (v :: vs) with
    | .error e => .error e
    | .ok (sv, rest1) =>
      match scanVoices spec.end_voice_spec (sv :: rest1) with
      | .error e => .error e
      | .ok (ev, rest2) =>
        match synthItem cfg spec sv ev with
        | .error e => .error e
        | .ok item => alignLoop cfg specs rest2 (acc ++ [item])

/-- A full alignment run over the cue and voice queues. -/
def runAlignment (cfg : AlignCfg) (specs : List ItemSpec) (voices : List VoiceItem) :
    Except AlignErr (List SynthItem) :=
  alignLoop cfg specs voices []

/-- The synthesized content of the output document written at the end of
`main`: present only when the alignment loop completed without raising
(an uncaught exception skips the `output_path.open ... json.dump`). -/
def alignedDocument (cfg : AlignCfg) (specs : List ItemSpec) (voices : List VoiceItem) :
    Option (List SynthItem) :=
  (runAlignment cfg specs voices).toOption

/-- A timeline entry of the input project: a voice item, or any other item
kind (opaque to the alignment engine apart from the layer shift). -/
inductive TimelineEntry where
  | voice (v : VoiceItem)
  | other
deriving DecidableEq

/-- The voice-item filter of `main` (lines 56–58). -/
def voiceItemsOf (items : List TimelineEntry) : List VoiceItem :=
  items.filterMap (fun e => match e with | .voice v => some v | .other => none)

/-- Errors surfacing from `main`: a `NameError` for an unbound global, a
parse error from line 49, or an alignment error from the loop. -/
inductive RunErr where
  | nameError (name : String)
  | parseError (e : ParseErr)
  | alignError (e : AlignErr)
deriving DecidableEq

/-- The module-level names bound in `yaml2items.py`: its import statements
(lines 1–12) and its own top-level definitions.  `os` is not among them. -/
def yaml2itemsModuleNames : List String :=
  ["annotations", "argparse", "json", "t", "Path", "yaml", "Image",
   "BaseModel", "Field", "validator",
   "ImageItem", "ItemType", "Project", "TextItem", "VoiceItem",
   "VoiceSpec", "ItemSpec", "ImageSpec", "TextSpec", "main",
   "ImageTransformation", "calculate_image_transformation", "list_item_specs"]

/-- Model of `main` (after the external YAML load and project JSON parse):
line 49 consumes `list_item_specs` eagerly; line 51 then evaluates
`os.environ`, which resolves the global name `os` and raises `NameError`
when it is unbound; only then would the alignment loop and the final
output write run. -/
def mainRun (cfg : AlignCfg) (scriptLines : List ScriptLine) (timeline : List TimelineEntry) :
    Except RunErr (List SynthItem) :=
  match list_item_specs scriptLines with
  | .error e => .error (.parseError e)
  | .ok specs =>
    if yaml2itemsModuleNames.contains "os" then
      match runAlignment cfg specs (voiceItemsOf timeline) with
      | .error e => .error (.alignError e)
      | .ok items => .ok items
    else .error (.nameError "os")

/-! ### Concrete fixtures used by witnesses and counterexamples -/

/-- Voice reference A of the spec's alignment example. -/
def sA : VoiceSpec := ⟨"ch", "a"⟩

/-- Voice reference B of the spec's alignment example. -/
def sB : VoiceSpec := ⟨"ch", "b"⟩

/-- Voice reference C of the spec's alignment example. -/
def sC : VoiceSpec := ⟨"ch", "c"⟩

/-- Voice reference D of the spec's alignment example. -/
def sD : VoiceSpec := ⟨"ch", "d"⟩

/-- Voice item with content A. -/
def vA : VoiceItem := ⟨"ch", "a", 0, 10⟩

/-- Voice item with content B. -/
def vB : VoiceItem := ⟨"ch", "b", 10, 10⟩

/-- Voice item with content C. -/
def vC : VoiceItem := ⟨"ch", "c", 20, 10⟩

/-- Voice item with content D. -/
def vD : VoiceItem := ⟨"ch", "d", 30, 10⟩

/-- A text cue wanting (A, B). -/
def cueAB : ItemSpec :=
  { kind := .text "t1" none, start_voice_spec := some sA, end_voice_spec := some sB }

/-- A text cue wanting (C, D). -/
def cueCD : ItemSpec :=
  { kind := .text "t2" none, start_voice_spec := some sC, end_voice_spec := some sD }

/-- A fixed configuration for concrete runs (text cues never consult
`getDims`). -/
def cfgTest : AlignCfg :=
  { getDims := fun _ => .error .imageError, videoInfo := ⟨1920, 1080⟩, projectRoot := "." }

/-- The item synthesized for `cueAB` over `[vA, vB, vC, vD]`. -/
def itemAB : SynthItem :=
  ⟨.text "t1" (Animation.const 48), 3, 0, 20, Animation.const 100, {}⟩

/-- The item synthesized for `cueCD` over the remaining voice items. -/
def itemCD : SynthItem :=
  ⟨.text "t2" (Animation.const 48), 3, 20, 20, Animation.const 100, {}⟩

/-! ### Claim theorems -/

/-- C1: the claim says a final cue whose span ends at end of script with
exactly one voice line is emitted with `endVoice = startVoice`.  The code
instead raises `AssertionError` there: the end-of-sequence finalization of
`list_item_specs` (lines 164–168) never defaults `end_voice_spec` to
`start_voice_spec`, unlike the mid-sequence branch (lines 141–142), so its
own `assert` fails on this legitimate script. -/
theorem C1_end_of_script_single_voice_asserts :
    list_item_specs
      [ScriptLine.mapLine [("text", .str "caption")],
       ScriptLine.mapLine [("reimu", .str "hello")]] =
      .error .assertionError := rfl

/-- C2 counterexample: the claim says that with voice items
`[A, B, C, D]` the reversed cue order — `(C, D)` then `(A, B)` — fails on
the second cue with an unmatched-voice error.  In the code the first cue's
scans consume the entire voice queue, so the loop guard
`while len(item_specs) and len(voice_items)` exits and the second cue is
silently dropped: the run succeeds with one synthesized item and no
error. -/
theorem C2_reversed_cues_do_not_error :
    runAlignment cfgTest [cueCD, cueAB] [vA, vB, vC, vD] = .ok [itemCD] := rfl

/-- C2 amended: matching is first-occurrence, left-to-right, without
backtracking.  Cues `(A, B)` then `(C, D)` over voice items
`[A, B, C, D]` yield two synthesized items; the reversed cue order
`(C, D)` then `(A, B)` consumes the whole voice queue on the first cue and
silently drops the second cue — one item, no error — because discarded
voice items are never considered again. -/
theorem C2_first_occurrence_matching :
    runAlignment cfgTest [cueAB, cueCD] [vA, vB, vC, vD] = .ok [itemAB, itemCD] ∧
    runAlignment cfgTest [cueCD, cueAB] [vA, vB, vC, vD] = .ok [itemCD] :=
  ⟨rfl, rfl⟩

/-- C3: every successfully synthesized timeline item has
`Frame = startVoiceItem.Frame` and
`Length = endVoiceItem.Frame + endVoiceItem.Length - startVoiceItem.Frame`
(`ItemBase.attrs_from_spec`). -/
theorem C3_frame_length_derivation (cfg : AlignCfg) (spec : ItemSpec)
    (sv ev : VoiceItem) (item : SynthItem)
    (h : synthItem cfg spec sv ev = .ok item) :
    item.Frame = sv.Frame ∧ item.Length = ev.Frame + ev.Length - sv.Frame := by
  unfold synthItem at h
  repeat' split at h
  all_goals first
    | exact Except.noConfusion h
    | (simp only [Except.ok.injEq] at h; subst h; exact ⟨rfl, rfl⟩)

/-- The start voice item of the claim C3 example (frame 100). -/
def vStart100 : VoiceItem := ⟨"ch", "s", 100, 15⟩

/-- The end voice item of the claim C3 example (frame 140, duration 20). -/
def vEnd140 : VoiceItem := ⟨"ch", "e", 140, 20⟩

/-- The cue of the claim C3 example. -/
def cueSE : ItemSpec :=
  { kind := .text "t" none, start_voice_spec := some ⟨"ch", "s"⟩,
    end_voice_spec := some ⟨"ch", "e"⟩ }

/-- The item synthesized for `cueSE` from `vStart100`/`vEnd140`. -/
def itemSE : SynthItem :=
  ⟨.text "t" (Animation.const 48), 3, 100, 60, Animation.const 100, {}⟩

/-- C3 witness: for start frame 100 and end frame 140 with duration 20,
the synthesized item has frame 100 and duration 60. -/
theorem C3_witness : itemSE.Frame = 100 ∧ itemSE.Length = 60 := by
  have h := C3_frame_length_derivation cfgTest cueSE vStart100 vEnd140 itemSE rfl
  simpa using h

/-- C6 counterexample: the claim says `Animation.const v` has
`from = to = v`.  In the code `const` is `cls(From=value)`, which leaves
`To` at its default `0.0`, so for `v = 100` the constructed animation has
`From = 100` but `To = 0 ≠ From`. -/
theorem C6_const_to_stays_default :
    (Animation.const 100).From = 100 ∧ (Animation.const 100).To = 0 ∧
    (Animation.const 100).To ≠ (Animation.const 100).From := by
  refine ⟨rfl, rfl, ?_⟩
  decide

/-- C6 amended: `Animation.const v` sets `From := v` and leaves the other
fields at their class defaults (`To = 0`, `AnimationType = "なし"`,
`Span = 0`); `From` equals `To` only when `v = 0`. -/
theorem C6_const_fields (v : ℚ) :
    Animation.const v = { From := v, To := 0, AnimationType := "なし", Span := 0 } := rfl

/-- C9: when the voice-item queue is empty at the top of the alignment
loop while cue specifications remain, the loop exits normally: the
leftover cues raise no error and contribute no synthesized items, and the
run completes with the items accumulated so far. -/
theorem C9_leftover_cues_silently_dropped (cfg : AlignCfg) (spec : ItemSpec)
    (specs : List ItemSpec) (acc : List SynthItem) :
    alignLoop cfg (spec :: specs) [] acc = .ok acc ∧
    runAlignment cfg (spec :: specs) [] = .ok [] :=
  ⟨rfl, rfl⟩

/-- C4: for any canvas and any image with positive width and height, with
the fixed margins (bottom 320, side 20), the calculator returns
`zoom = 100 * min ((W-20)/w) ((H-20-320)/h)` and `y = -160`, and the
scaled image fits strictly: `zoom*h/100 < H-320` and `zoom*w/100 < W`. -/
theorem C4_transform_bounds (W H w h : ℚ) (hw : 0 < w) (hh : 0 < h) :
    calculate_image_transformation w h W H 320 20 =
      .ok { zoom := 100 * min ((W - 20) / w) ((H - 20 - 320) / h), y := -160 } ∧
    100 * min ((W - 20) / w) ((H - 20 - 320) / h) * h / 100 < H - 320 ∧
    100 * min ((W - 20) / w) ((H - 20 - 320) / h) * w / 100 < W := by
  have hw0 : w ≠ 0 := ne_of_gt hw
  have hh0 : h ≠ 0 := ne_of_gt hh
  have keyh : 100 * min ((W - 20) / w) ((H - 20 - 320) / h) * h / 100 =
      min ((W - 20) / w) ((H - 20 - 320) / h) * h := by
    field_simp
    ring
  have keyw : 100 * min ((W - 20) / w) ((H - 20 - 320) / h) * w / 100 =
      min ((W - 20) / w) ((H - 20 - 320) / h) * w := by
    field_simp
    ring
  have hzh : (H - 20 - 320) / h * h = H - 20 - 320 := div_mul_cancel₀ _ hh0
  have hzw : (W - 20) / w * w = W - 20 := div_mul_cancel₀ _ hw0
  have hbh : 100 * min ((W - 20) / w) ((H - 20 - 320) / h) * h / 100 < H - 320 := by
    rw [keyh]
    have h1 : min ((W - 20) / w) ((H - 20 - 320) / h) * h ≤ (H - 20 - 320) / h * h :=
      mul_le_mul_of_nonneg_right (min_le_right _ _) hh.le
    linarith
  have hbw : 100 * min ((W - 20) / w) ((H - 20 - 320) / h) * w / 100 < W := by
    rw [keyw]
    have h1 : min ((W - 20) / w) ((H - 20 - 320) / h) * w ≤ (W - 20) / w * w :=
      mul_le_mul_of_nonneg_right (min_le_left _ _) hw.le
    linarith
  refine ⟨?_, hbh, hbw⟩
  have hcond : ¬(w = 0 ∨ h = 0) := by
    push_neg
    exact ⟨hw0, hh0⟩
  simp only [calculate_image_transformation]
  rw [if_neg hcond, if_pos ⟨hbh, hbw⟩]
  norm_num

/-- C4 witness: canvas 1920×1080, image 800×600 — the transform is
returned with `y = -160` and the strict bounds hold. -/
theorem C4_transform_bounds_witness :
    calculate_image_transformation 800 600 1920 1080 320 20 =
      .ok { zoom := 100 * min ((1920 - 20) / 800) ((1080 - 20 - 320) / 600), y := -160 } ∧
    100 * min (((1920 : ℚ) - 20) / 800) ((1080 - 20 - 320) / 600) * 600 / 100 < 1080 - 320 ∧
    100 * min (((1920 : ℚ) - 20) / 800) ((1080 - 20 - 320) / 600) * 800 / 100 < 1920 :=
  C4_transform_bounds 1920 1080 800 600 (by norm_num) (by norm_num)

/-- C5 counterexample: the claim says any zero-or-negative image dimension
makes the calculator fail rather than return a transformation.  For a
negative height (image 800×(−600), canvas 1920×1080) the code has no
dimension check, both assertions happen to pass, and a transformation with
negative zoom is returned. -/
theorem C5_negative_height_returns_transform :
    calculate_image_transformation 800 (-600) 1920 1080 320 20 =
      .ok { zoom := -370 / 3, y := -160 } := by
  simp only [calculate_image_transformation]
  norm_num [min_def]

/-- C5 amended: a zero image width or height makes the calculator fail
(with a `ZeroDivisionError`, not a dedicated `InvalidImageDimensions`
error) rather than return a transformation; negative dimensions are not
rejected and can yield a returned transformation. -/
theorem C5_zero_dimension_fails (W H b m w h : ℚ) (hzero : w = 0 ∨ h = 0) :
    calculate_image_transformation w h W H b m = .error .zeroDivision := by
  simp only [calculate_image_transformation]
  rw [if_pos hzero]

/-- C5 witness: a zero-width image fails with the division error. -/
theorem C5_zero_dimension_fails_witness :
    calculate_image_transformation 0 600 1920 1080 320 20 = .error .zeroDivision :=
  C5_zero_dimension_fails 1920 1080 320 20 0 600 (Or.inl rfl)

/-- C7 counterexample: the claim says blank or non-mapping lines are
ignored wherever inserted.  Inserting a blank line (`None`) into the empty
script changes the parser output from success to a `TypeError` (Python's
`"image" in None`), and inserting a plain string containing `"image"` as a
substring makes the marker test fire and `ImageSpec.parse_obj` fail. -/
theorem C7_blank_line_not_ignored :
    list_item_specs ([] : List ScriptLine) = .ok [] ∧
    list_item_specs [ScriptLine.nullLine] = .error .typeError ∧
    list_item_specs [ScriptLine.strLine "see the image"] = .error .validationError :=
  ⟨rfl, rfl, rfl⟩

/-- C7 amended: a plain-string line that does not contain `"image"` or
`"text"` as a substring is ignored: inserting it anywhere leaves the
parser's output unchanged.  (A blank/`None` line raises `TypeError`, and a
string containing those substrings is treated as a cue marker and fails
`parse_obj`.) -/
theorem C7_benign_string_ignored (l1 l2 : List ScriptLine) (s : String)
    (h1 : strContains s "image" = false) (h2 : strContains s "text" = false) :
    list_item_specs (l1 ++ ScriptLine.strLine s :: l2) = list_item_specs (l1 ++ l2) := by
  have hstep : ∀ st : Except ParseErr PState, pstep st (ScriptLine.strLine s) = st := by
    intro st
    cases st with
    | error e => rfl
    | ok ps =>
      simp only [pstep, lineHasKey, h1, h2, Bool.or_self]
      cases hci : ps.current_item <;> simp
  unfold list_item_specs
  rw [List.foldl_append, List.foldl_cons, hstep, ← List.foldl_append]

/-- C7 witness: inserting the harmless string "hello" into the empty
script leaves the parse result unchanged. -/
theorem C7_benign_string_ignored_witness :
    list_item_specs ([] ++ ScriptLine.strLine "hello" :: []) = list_item_specs ([] ++ []) :=
  C7_benign_string_ignored [] [] "hello" rfl rfl

/-- Helper: a reference that matches nothing in the queue makes the scan
discard everything and raise the `ValueError` that names that reference. -/
theorem scanVoices_exhausts (s : VoiceSpec) (l : List VoiceItem)
    (h : ∀ v ∈ l, s.matches v = false) :
    scanVoices (some s) l = .error (.unmatchedVoice (some s)) := by
  induction l with
  | nil => rfl
  | cons v vs ih =>
    have hv : s.matches v = false := h v (List.mem_cons_self v vs)
    have ih' := ih (fun w hw => h w (List.mem_cons_of_mem v hw))
    simp [scanVoices, optMatches, hv, ih']

/-- Helper: when the queue holds a match, the scan succeeds and returns a
suffix of the queue with the first match at its front. -/
theorem scanVoices_finds (s : VoiceSpec) (l : List VoiceItem)
    (hex : ∃ v ∈ l, s.matches v = true) :
    ∃ sv rest, scanVoices (some s) l = .ok (sv, rest) ∧ (sv :: rest) <:+ l := by
  induction l with
  | nil => simp at hex
  | cons v vs ih =>
    by_cases hm : s.matches v = true
    · exact ⟨v, vs, by simp [scanVoices, optMatches, hm], List.suffix_refl _⟩
    · have hm' : s.matches v = false := by revert hm; cases s.matches v <;> simp
      obtain ⟨w, hw, hmw⟩ := hex
      rcases List.mem_cons.mp hw with heq | hwvs
      · subst heq; exact absurd hmw hm
      · obtain ⟨sv, rest, hscan, hsuf⟩ := ih ⟨w, hwvs, hmw⟩
        refine ⟨sv, rest, ?_, hsuf.trans (List.suffix_cons v vs)⟩
        simp [scanVoices, optMatches, hm', hscan]

/-- C8: when a scan for the current cue's start or end reference exhausts
the (non-empty) voice queue without a content match, the run fails with
the `ValueError` naming that exact reference, and no output document is
produced. -/
theorem C8_unmatched_reference_aborts (cfg : AlignCfg) (spec : ItemSpec)
    (specs : List ItemSpec) (v : VoiceItem) (vs : List VoiceItem) :
    (∀ s, spec.start_voice_spec = some s →
      (∀ x ∈ v :: vs, s.matches x = false) →
      runAlignment cfg (spec :: specs) (v :: vs) = .error (.unmatchedVoice (some s)) ∧
      alignedDocument cfg (spec :: specs) (v :: vs) = none) ∧
    (∀ s e, spec.start_voice_spec = some s → spec.end_voice_spec = some e →
      (∃ x ∈ v :: vs, s.matches x = true) →
      (∀ x ∈ v :: vs, e.matches x = false) →
      runAlignment cfg (spec :: specs) (v :: vs) = .error (.unmatchedVoice (some e)) ∧
      alignedDocument cfg (spec :: specs) (v :: vs) = none) := by
  constructor
  · intro s hs hall
    have hscan := scanVoices_exhausts s (v :: vs) hall
    have hrun : runAlignment cfg (spec :: specs) (v :: vs) =
        .error (.unmatchedVoice (some s)) := by
      simp only [runAlignment, alignLoop, hs, hscan]
    exact ⟨hrun, by simp [alignedDocument, hrun, Except.toOption]⟩
  · intro s e hs he hex hall
    obtain ⟨sv, rest, hscan, hsuf⟩ := scanVoices_finds s (v :: vs) hex
    have hall2 : ∀ x ∈ sv :: rest, e.matches x = false :=
      fun x hx => hall x (hsuf.sublist.subset hx)
    have hscan2 := scanVoices_exhausts e (sv :: rest) hall2
    have hrun : runAlignment cfg (spec :: specs) (v :: vs) =
        .error (.unmatchedVoice (some e)) := by
      simp only [runAlignment, alignLoop, hs, hscan, he, hscan2]
    exact ⟨hrun, by simp [alignedDocument, hrun, Except.toOption]⟩

/-- C8 witness: a cue wanting (A, B) over the single voice item C raises
the unmatched error naming A and yields no document. -/
theorem C8_unmatched_reference_aborts_witness :
    runAlignment cfgTest [cueAB] [vC] = .error (.unmatchedVoice (some sA)) ∧
    alignedDocument cfgTest [cueAB] [vC] = none :=
  (C8_unmatched_reference_aborts cfgTest cueAB [] vC []).1 sA rfl (by decide)

/-- C10 counterexample: the claim says every invocation of `main` raises
`NameError`.  For a script whose final cue lacks an end voice line,
`list(list_item_specs(lines))` at line 49 raises `AssertionError` before
line 51 is reached, so this input fails with a parse error, not with
`NameError`. -/
theorem C10_parse_error_can_precede_name_error :
    mainRun cfgTest
      [ScriptLine.mapLine [("image", .str "a.png")], ScriptLine.mapLine [("m", .str "hi")]] [] =
      .error (.parseError .assertionError) ∧
    (Except.error (RunErr.parseError .assertionError) : Except RunErr (List SynthItem)) ≠
      .error (.nameError "os") := ⟨rfl, by simp⟩

/-- C10 amended: `os` is not among the module-level names of
`yaml2items.py`, so whenever script parsing succeeds, `main` raises
`NameError` at the `project_root` computation (line 51), before alignment
and before any output is written; consequently no invocation of `main`
completes successfully (inputs whose script is malformed abort even
earlier, at line 49). -/
theorem C10_name_error_after_parse : (∀ (cfg : AlignCfg) (lines : List ScriptLine)
      (timeline : List TimelineEntry) (specs : List ItemSpec),
      list_item_specs lines = .ok specs →
      mainRun cfg lines timeline = .error (.nameError "os")) ∧
    (∀ (cfg : AlignCfg) (lines : List ScriptLine) (timeline : List TimelineEntry)
      (items : List SynthItem), mainRun cfg lines timeline ≠ .ok items) := by
  have hos : yaml2itemsModuleNames.contains "os" = false := by decide
  constructor
  · intro cfg lines timeline specs hp
    simp only [mainRun, hp, hos, Bool.false_eq_true, if_false]
  · intro cfg lines timeline items hc
    have hos2 : ¬ ("os" ∈ yaml2itemsModuleNames) := by decide
    unfold mainRun at hc
    rcases hp : list_item_specs lines with e | specs <;> rw [hp] at hc <;>
      simp [hos, hos2] at hc

/-- C10 witness: the empty script parses successfully and `main` then
fails with the `NameError` for `os`. -/
theorem C10_name_error_witness : mainRun cfgTest [] [] = .error (.nameError "os") :=
  C10_name_error_after_parse.1 cfgTest [] [] [] rfl

end YukkuriLib
